import Mathlib

/-!
Verification of the Cognify adaptive-mastery engine.

The definitions below are shallow embeddings of the repository sources:
the Cognitive Mastery Score (CMS) and ELO skill-update formulas from the
plan document, the `attempts` and `user_skill` table constraints from the
SQL schema, and the two QuestionCard frontend components together with
the `submitAnswer` API client.
-/

namespace Cognify

/-! ## Mastery Scorer (CMS), from the plan document section 4

Python pseudocode:
  accuracy = 1 if is_correct else 0
  time_score = max(0, 1 - (time_taken/(1.6*avg_time)))
  retry_score = 1/(1+retries)
  hint_score = 0 if hint_used else 1
  confidence_score = (confidence-1)/4
  CMS = 0.45*accuracy + 0.18*time_score + 0.12*retry_score
      + 0.15*hint_score + 0.10*confidence_score
-/

def accuracy (is_correct : Bool) : ℚ :=
  if is_correct then 1 else 0

def time_score (time_taken avg_time : ℚ) : ℚ :=
  max 0 (1 - time_taken / (1.6 * avg_time))

def retry_score (retries : ℕ) : ℚ :=
  1 / (1 + (retries : ℚ))

def hint_score (hint_used : Bool) : ℚ :=
  if hint_used then 0 else 1

def confidence_score (confidence : ℕ) : ℚ :=
  ((confidence : ℚ) - 1) / 4

def CMS (is_correct : Bool) (time_taken : ℚ) (retries : ℕ)
    (hint_used : Bool) (confidence : ℕ) (avg_time : ℚ) : ℚ :=
  0.45 * accuracy is_correct
    + 0.18 * time_score time_taken avg_time
    + 0.12 * retry_score retries
    + 0.15 * hint_score hint_used
    + 0.10 * confidence_score confidence

/-- Modelled from the spec wording for the time component: the spec section 4.1
writes `time_score = clamp(0, 1, 1 - time_taken / (1.6 * avg_time_for_tier))`,
with an explicit upper clamp at 1, where the plan document uses `max(0, _)`.
This definition follows the spec words, for comparison with `time_score`. -/
def time_score_spec (time_taken avg_time : ℚ) : ℚ :=
  min 1 (max 0 (1 - time_taken / (1.6 * avg_time)))

/-- C1: for every attempt with time_taken > 0, avg_time > 0 and confidence
in 1..5 (retries any natural number, booleans arbitrary), the composite
score CMS lies in the closed interval [0, 1]. -/
theorem cms_in_unit_interval (ic : Bool) (t : ℚ) (r : ℕ) (h : Bool)
    (c : ℕ) (a : ℚ) (ht : 0 < t) (ha : 0 < a) (hc1 : 1 ≤ c) (hc5 : c ≤ 5) :
    0 ≤ CMS ic t r h c a ∧ CMS ic t r h c a ≤ 1 := by
  have h16a : (0 : ℚ) < 1.6 * a := by nlinarith
  have hacc : accuracy ic = 0 ∨ accuracy ic = 1 := by
    cases ic <;> simp [accuracy]
  have hts0 : 0 ≤ time_score t a := le_max_left 0 _
  have hts1 : time_score t a ≤ 1 := by
    have hdiv : 0 ≤ t / (1.6 * a) := div_nonneg ht.le h16a.le
    exact max_le (by norm_num) (by linarith)
  have hr0 : (0 : ℚ) ≤ (r : ℚ) := Nat.cast_nonneg r
  have hrs0 : 0 ≤ retry_score r := by
    unfold retry_score
    exact div_nonneg (by norm_num) (by linarith)
  have hrs1 : retry_score r ≤ 1 := by
    unfold retry_score
    rw [div_le_one (by linarith)]
    linarith
  have hhs : hint_score h = 0 ∨ hint_score h = 1 := by
    cases h <;> simp [hint_score]
  have hc1q : (1 : ℚ) ≤ (c : ℚ) := by exact_mod_cast hc1
  have hc5q : (c : ℚ) ≤ 5 := by exact_mod_cast hc5
  have hcs0 : 0 ≤ confidence_score c := by
    unfold confidence_score
    exact div_nonneg (by linarith) (by norm_num)
  have hcs1 : confidence_score c ≤ 1 := by
    unfold confidence_score
    rw [div_le_one (by norm_num)]
    linarith
  unfold CMS
  constructor <;>
    rcases hacc with h1 | h1 <;> rcases hhs with h2 | h2 <;>
      rw [h1, h2] <;> linarith

/-- Witness for C1 at a concrete attempt: correct answer, 1 second taken,
no retries, no hint, confidence 3, average time 1 second. -/
theorem cms_in_unit_interval_witness :
    (0 : ℚ) < 1 ∧ (0 : ℚ) < 1 ∧ 1 ≤ 3 ∧ 3 ≤ 5 ∧
      (0 ≤ CMS true 1 0 false 3 1 ∧ CMS true 1 0 false 3 1 ≤ 1) :=
  ⟨by norm_num, by norm_num, by norm_num, by norm_num,
    cms_in_unit_interval true 1 0 false 3 1 (by norm_num) (by norm_num)
      (by norm_num) (by norm_num)⟩

/-- C5: for time_taken > 0 and avg_time > 0 the plan formula
`max(0, 1 - time_taken/(1.6*avg_time))` coincides with the spec formula
`clamp(0, 1, 1 - time_taken/(1.6*avg_time))`: the upper clamp at 1 is
redundant under the stated precondition. -/
theorem time_score_clamp_eq (t a : ℚ) (ht : 0 < t) (ha : 0 < a) :
    time_score t a = time_score_spec t a := by
  have h16a : (0 : ℚ) < 1.6 * a := by nlinarith
  have hdiv : 0 < t / (1.6 * a) := div_pos ht h16a
  unfold time_score time_score_spec
  exact (min_eq_right (max_le (by norm_num) (by linarith))).symm

/-- Witness for C5 at time_taken = 1, avg_time = 1. -/
theorem time_score_clamp_eq_witness :
    (0 : ℚ) < 1 ∧ time_score 1 1 = time_score_spec 1 1 :=
  ⟨by norm_num, time_score_clamp_eq 1 1 (by norm_num) (by norm_num)⟩

/-- C6: holding time, retries, hint and confidence fixed, the CMS with
is_correct = true exceeds the CMS with is_correct = false by exactly the
0.45 accuracy weight, hence is greater than or equal to it. -/
theorem cms_monotone_in_accuracy (t : ℚ) (r : ℕ) (h : Bool) (c : ℕ) (a : ℚ) :
    CMS true t r h c a = CMS false t r h c a + 0.45 ∧
      CMS false t r h c a ≤ CMS true t r h c a := by
  have heq : CMS true t r h c a = CMS false t r h c a + 0.45 := by
    simp [CMS, accuracy]
    ring
  exact ⟨heq, by rw [heq]; linarith⟩

/-! ## Skill Updater (ELO), from the plan document section 5

Python pseudocode:
  item_rating = 1000 + (difficulty-1)*200
  expected = 1/(1 + 10**((item_rating - skill)/400))
  new_skill = skill + 20*(CMS - expected)
-/

noncomputable def item_rating (difficulty : ℕ) : ℝ :=
  1000 + ((difficulty : ℝ) - 1) * 200

noncomputable def expected (ir skill : ℝ) : ℝ :=
  1 / (1 + (10 : ℝ) ^ ((ir - skill) / 400))

noncomputable def new_skill (skill : ℝ) (difficulty : ℕ) (cms : ℝ) : ℝ :=
  skill + 20 * (cms - expected (item_rating difficulty) skill)

/-- The denominator term 10^((ir - skill)/400) is strictly positive, so the
expected score lies strictly between 0 and 1. -/
theorem expected_mem_Ioo (ir skill : ℝ) :
    0 < expected ir skill ∧ expected ir skill < 1 := by
  have hp : (0 : ℝ) < (10 : ℝ) ^ ((ir - skill) / 400) :=
    Real.rpow_pos_of_pos (by norm_num) _
  constructor
  · exact div_pos (by norm_num) (by linarith)
  · rw [expected, div_lt_one (by linarith)]
    linarith

/-- C2 counterexample: the spec scenario claims that old_rating = 1000,
tier = 3, composite = 0 gives item_rating = 1200, expected =
1/(1 + 10^(200/400)) and new_rating within 0.05 of 995.2; in fact the
formula item_rating = 1000 + (tier - 1) * 200 gives 1400 at tier 3, so the
claimed conjunction is false. -/
theorem elo_scenario_one_false :
    ¬ (item_rating 3 = 1200 ∧
        expected (item_rating 3) 1000 = 1 / (1 + (10 : ℝ) ^ ((200 : ℝ) / 400)) ∧
        |new_skill 1000 3 0 - 995.2| < 0.05) := by
  rintro ⟨h, -, -⟩
  have : item_rating 3 = 1400 := by
    unfold item_rating
    norm_num
  rw [this] at h
  norm_num at h

/-- C2 amended: with old_rating = 1000, tier = 3 and composite = 0, the
ELO computation yields item_rating = 1400, expected = 1/(1 + 10^(400/400))
= 1/11, and new_rating = 1000 - 20/11, which is within 0.05 of 998.2. -/
theorem elo_scenario_one :
    item_rating 3 = 1400 ∧
      expected (item_rating 3) 1000 = 1 / 11 ∧
      |new_skill 1000 3 0 - 998.2| < 0.05 := by
  have hir : item_rating 3 = 1400 := by
    unfold item_rating
    norm_num
  have hexp : expected (item_rating 3) 1000 = 1 / 11 := by
    rw [hir]
    unfold expected
    norm_num
  refine ⟨hir, hexp, ?_⟩
  unfold new_skill
  rw [hexp]
  rw [abs_lt]
  constructor <;> norm_num

/-- C8: for every old rating, difficulty tier and composite score in
[0, 1], the ELO update moves the rating by strictly less than the full
K = 20 step, because the expected score lies strictly in (0, 1). -/
theorem elo_step_bound (skill : ℝ) (difficulty : ℕ) (cms : ℝ)
    (h0 : 0 ≤ cms) (h1 : cms ≤ 1) :
    |new_skill skill difficulty cms - skill| < 20 := by
  obtain ⟨he0, he1⟩ := expected_mem_Ioo (item_rating difficulty) skill
  unfold new_skill
  rw [abs_lt]
  constructor <;> nlinarith

/-- Witness for C8 at skill = 1000, tier = 3, composite = 0. -/
theorem elo_step_bound_witness :
    (0 : ℝ) ≤ 0 ∧ (0 : ℝ) ≤ 1 ∧ |new_skill 1000 3 0 - 1000| < 20 :=
  ⟨le_refl 0, by norm_num, elo_step_bound 1000 3 0 (le_refl 0) (by norm_num)⟩

/-! ## The attempts table, from the SQL schema

The attempts table declares
  is_correct BOOLEAN NOT NULL, time_taken FLOAT NOT NULL,
  retries INT NOT NULL DEFAULT 0, hint_used BOOLEAN NOT NULL DEFAULT FALSE,
  confidence INT NOT NULL CHECK (confidence BETWEEN 1 AND 5)
and no constraint at all on time_taken beyond NOT NULL.
-/

structure AttemptRow where
  is_correct : Bool
  time_taken : ℚ
  retries : ℤ
  hint_used : Bool
  confidence : ℤ

/-- The conjunction of the CHECK constraints the attempts table places on
a submitted row: only `confidence BETWEEN 1 AND 5`. -/
def attempts_row_check (r : AttemptRow) : Bool :=
  decide (1 ≤ r.confidence) && decide (r.confidence ≤ 5)

def zeroTimeAttempt : AttemptRow :=
  { is_correct := true, time_taken := 0, retries := 0,
    hint_used := false, confidence := 3 }

/-- C4 counterexample: an attempt with time_taken = 0 (non-positive) and
confidence 3 passes every constraint the attempts table imposes, so a
non-positive time_taken is not rejected before scoring as the claim
states. -/
theorem zero_time_attempt_accepted :
    attempts_row_check zeroTimeAttempt = true ∧
      ¬ (0 < zeroTimeAttempt.time_taken) := by
  constructor
  · decide
  · decide

/-- C4 amended: a submission is rejected by the attempts table exactly
when its confidence lies outside the integer range 1..5; the table places
no constraint on time_taken, so a non-positive time_taken is accepted
(and scored) rather than rejected. -/
theorem attempts_row_check_iff (r : AttemptRow) :
    attempts_row_check r = true ↔ (1 ≤ r.confidence ∧ r.confidence ≤ 5) := by
  simp [attempts_row_check]

/-! ## Skill Ledger -/

abbrev LearnerConcept := ℕ × ℕ

/-- Modelled from the spec: the Skill Ledger read/update protocol (the
FastAPI backend that implements it is not under src/). Per spec sections
3 and 4.2, a SkillRating row is created lazily on first access with the
fixed default 1000 — the default value itself is declared in the src
schema as `skill FLOAT NOT NULL DEFAULT 1000.0` — and is subsequently
mutated only by attempt-driven updates. -/
inductive LedgerOp where
  | readSkill (k : LearnerConcept)
  | updateSkill (k : LearnerConcept) (rating : ℚ)

abbrev LedgerState := LearnerConcept → Option ℚ

/-- Modelled from the spec: no SkillRating rows exist before first
access (never pre-seeded). -/
def initial_ledger : LedgerState := fun _ => none

/-- Modelled from the spec: reading a rating lazily creates the row with
the default 1000 when it does not exist yet, returning the stored value
otherwise. -/
def lazy_read (s : LedgerState) (k : LearnerConcept) : ℚ × LedgerState :=
  match s k with
  | some r => (r, s)
  | none => (1000, fun k2 => if k2 = k then some 1000 else s k2)

/-- Modelled from the spec: the only two operations touching the ledger
are reads (lazy-creating) and attempt-driven rating writes. -/
def apply_op (s : LedgerState) : LedgerOp → LedgerState
  | .readSkill k => (lazy_read s k).2
  | .updateSkill k r => fun k2 => if k2 = k then some r else s k2

def run_ops (ops : List LedgerOp) : LedgerState :=
  ops.foldl apply_op initial_ledger

theorem ledger_default_invariant (ops : List LedgerOp) :
    ∀ s : LedgerState, ∀ k : LearnerConcept,
      (s k = none ∨ s k = some 1000) →
      (∀ r, LedgerOp.updateSkill k r ∉ ops) →
      ((ops.foldl apply_op s) k = none ∨ (ops.foldl apply_op s) k = some 1000) := by
  induction ops with
  | nil => intro s k hs _; exact hs
  | cons op ops ih =>
    intro s k hs h
    rw [List.foldl_cons]
    refine ih (apply_op s op) k ?_ (fun r hr => h r (List.mem_cons_of_mem op hr))
    cases op with
    | readSkill k2 =>
      unfold apply_op lazy_read
      rcases h2 : s k2 with _ | r
      · simp only [h2]
        by_cases hk : k = k2
        · simp [hk]
        · simp [hk]
          exact hs
      · simp only [h2]
        exact hs
    | updateSkill k2 r =>
      have hne : k ≠ k2 := by
        intro hkk
        exact h r (by rw [hkk]; exact List.mem_cons_self _ _)
      unfold apply_op
      simp [hne]
      exact hs

/-- C7: for every (learner, concept) key, as long as no attempt-driven
update for that key has occurred, reading its rating returns the fixed
default 1000, and the lazily created row stores exactly 1000; ratings are
never pre-seeded with any other value and change only through update
operations. -/
theorem skill_default_before_update (ops : List LedgerOp) (k : LearnerConcept)
    (h : ∀ r, LedgerOp.updateSkill k r ∉ ops) :
    (lazy_read (run_ops ops) k).1 = 1000 ∧
      (lazy_read (run_ops ops) k).2 k = some 1000 := by
  have hinv := ledger_default_invariant ops initial_ledger k (Or.inl rfl) h
  unfold run_ops
  rcases hinv with hc | hc <;> unfold lazy_read <;> simp [hc]

/-- Witness for C7: a trace consisting of a single read of key (1, 2)
contains no update for that key, and the read yields 1000. -/
theorem skill_default_before_update_witness :
    (∀ r : ℚ, LedgerOp.updateSkill (1, 2) r ∉ [LedgerOp.readSkill (1, 2)]) ∧
      (lazy_read (run_ops [LedgerOp.readSkill (1, 2)]) (1, 2)).1 = 1000 :=
  ⟨fun r => by simp,
    (skill_default_before_update [LedgerOp.readSkill (1, 2)] (1, 2)
      (fun r => by simp)).1⟩

/-! ## Frontend: the api client and the two QuestionCard variants

`submitAnswer` in lib/api.ts serializes its positional parameters
  (user_id, question_id, user_answer, time_taken, retries = 0,
   hint_used = false, confidence = 3)
into the request body fields of the same names. JavaScript runtime
values are untyped, so the serialized fields are modelled by `JSValue`.
-/

inductive JSValue where
  | num (q : ℚ)
  | bool (b : Bool)
  | str (s : String)
deriving DecidableEq

structure SubmitBody where
  user_id : JSValue
  question_id : JSValue
  user_answer : JSValue
  time_taken : JSValue
  retries : JSValue
  hint_used : JSValue
  confidence : JSValue
deriving DecidableEq

def submitAnswer (user_id question_id user_answer time_taken
    retries hint_used confidence : JSValue) : SubmitBody :=
  { user_id := user_id, question_id := question_id,
    user_answer := user_answer, time_taken := time_taken,
    retries := retries, hint_used := hint_used, confidence := confidence }

/-- The self-graded QuestionCard variant: `handleAnswer` calls
`submitAnswer(userId, question.id, isCorrect, timeTaken, confidence, 0,
hintUsed)` with its arguments in that positional order. -/
def handleAnswer_request (userId questionId : ℚ) (isCorrect : Bool)
    (timeTaken confidence : ℚ) (hintUsed : Bool) : SubmitBody :=
  submitAnswer (.num userId) (.num questionId) (.bool isCorrect)
    (.num timeTaken) (.num confidence) (.num 0) (.bool hintUsed)

/-- C9: for every submission through the self-graded QuestionCard, the
serialized request assigns the confidence slider value to the retries
field, the constant 0 to the hint_used field regardless of the hint
toggle, and the boolean hint flag to the confidence field. -/
theorem self_graded_fields_swapped (userId questionId : ℚ) (isCorrect : Bool)
    (timeTaken confidence : ℚ) (hintUsed : Bool) :
    (handleAnswer_request userId questionId isCorrect timeTaken confidence
        hintUsed).retries = JSValue.num confidence ∧
      (handleAnswer_request userId questionId isCorrect timeTaken confidence
        hintUsed).hint_used = JSValue.num 0 ∧
      (handleAnswer_request userId questionId isCorrect timeTaken confidence
        hintUsed).confidence = JSValue.bool hintUsed :=
  ⟨rfl, rfl, rfl⟩

/-! ## The MCQ/numerical QuestionCard variant -/

structure Question where
  question_type : String
  correct_option : Option String
  correct_answer : Option String

/-- Local grading in the MCQ/numerical QuestionCard. `parse_float`
abstracts the JavaScript parseFloat builtin, returning none where
parseFloat returns NaN. -/
def gradeLocally (parse_float : String → Option ℚ) (q : Question)
    (answer : String) : Bool :=
  if q.question_type == "mcq" then
    answer.toUpper == (q.correct_option.getD ("")).toUpper
  else
    match parse_float answer, parse_float (q.correct_answer.getD ("")) with
    | some uv, some cv => decide (|uv - cv| < 0.01)
    | _, _ =>
        answer.trim.toLower == (q.correct_answer.getD ("")).trim.toLower

/-- C10: local grading accepts an MCQ answer iff it equals the stored
correct_option up to case (uppercased equality); for a numerical
question, when both the answer and the stored correct_answer parse, it
accepts iff their absolute difference is below 0.01, and otherwise falls
back to trimmed, lowercased string equality with the stored
correct_answer. -/
theorem gradeLocally_characterization (pf : String → Option ℚ)
    (q : Question) (answer : String) :
    (q.question_type = "mcq" →
      (gradeLocally pf q answer = true ↔
        answer.toUpper = (q.correct_option.getD ("")).toUpper)) ∧
      (q.question_type ≠ "mcq" → ∀ uv cv, pf answer = some uv →
        pf (q.correct_answer.getD ("")) = some cv →
        (gradeLocally pf q answer = true ↔ |uv - cv| < 0.01)) ∧
      (q.question_type ≠ "mcq" →
        (pf answer = none ∨ pf (q.correct_answer.getD ("")) = none) →
        (gradeLocally pf q answer = true ↔
          answer.trim.toLower = (q.correct_answer.getD ("")).trim.toLower)) := by
  refine ⟨fun hmcq => ?_, fun hne uv cv hu hc => ?_, fun hne hnone => ?_⟩
  · simp [gradeLocally, hmcq]
  · have hb : (q.question_type == "mcq") = Bool.false := by
      simp [hne]
    simp [gradeLocally, hb, hu, hc]
  · have hb : (q.question_type == "mcq") = Bool.false := by
      simp [hne]
    rcases hnone with hn | hn
    · simp [gradeLocally, hb, hn]
    · rcases ha : pf answer with _ | uv <;> simp [gradeLocally, hb, hn, ha]

def pf_example : String → Option ℚ := fun _ => some 42

def q_numerical : Question :=
  { question_type := "numerical", correct_option := none,
    correct_answer := some ("42") }

/-- Witness for C10 on the numerical branch: with a parse function that
reads both strings as 42, grading is equivalent to the 0.01-tolerance
test. -/
theorem gradeLocally_characterization_witness :
    ("numerical" : String) ≠ "mcq" ∧
      pf_example ("42") = some 42 ∧
      (gradeLocally pf_example q_numerical ("42") = true ↔
        |(42 : ℚ) - 42| < 0.01) :=
  ⟨by decide, rfl,
    (gradeLocally_characterization pf_example q_numerical ("42")).2.1
      (by decide) 42 42 rfl rfl⟩

/-! ## AnswerResponse and the failure fallback in handleSubmit -/

structure RemediationData where
  weak_prereq : Option String
  target_concept : String
  lesson : String
  guided_questions : List (String × ℕ)

structure AnswerResponse where
  cms : ℚ
  old_skill : ℚ
  new_skill : ℚ
  skill_delta : ℚ
  remediation : Option RemediationData
  message : String
  is_correct : Bool
  correct_answer : String
  explanation : String

/-- The locally fabricated response built in the catch branch of
`handleSubmit` when the `submitAnswer` call fails. -/
def fallbackResponse (isCorrect : Bool) (retries : ℕ) (q : Question) :
    AnswerResponse :=
  { cms := if isCorrect then (if retries = 0 then 0.85 else 0.55) else 0,
    old_skill := 1000, new_skill := 1000, skill_delta := 0,
    remediation := none,
    message := if isCorrect then "Correct!" else "Incorrect.",
    is_correct := isCorrect,
    correct_answer := q.correct_answer.getD (""),
    explanation := if isCorrect then "Correct!" else
      "The correct answer is " ++
        ((if q.question_type == "mcq" then q.correct_option
          else q.correct_answer).getD ("undefined")) ++ "." }

/-- The result `handleSubmit` surfaces for a final submission: the server
response when the `submitAnswer` call succeeds, and the locally
fabricated `fallbackResponse` when it fails. -/
def handleSubmitResult (isCorrect : Bool) (retries : ℕ) (q : Question) :
    Option AnswerResponse → AnswerResponse
  | some res => res
  | none => fallbackResponse isCorrect retries q

def q_mcq : Question :=
  { question_type := "mcq", correct_option := some ("B"),
    correct_answer := some ("B") }

/-- C3 counterexample: when the answer-submission call itself fails
(no server response, hence nothing persisted), `handleSubmit` for a
correct first-try answer surfaces a locally fabricated response with
composite score 0.85 and ratings 1000/1000/0 — a failure path does
substitute a locally fabricated composite score and rating in place of a
persisted result. -/
theorem submit_failure_fabricates :
    (handleSubmitResult true 0 q_mcq none).cms = 0.85 ∧
      (handleSubmitResult true 0 q_mcq none).old_skill = 1000 ∧
      (handleSubmitResult true 0 q_mcq none).new_skill = 1000 ∧
      (handleSubmitResult true 0 q_mcq none).skill_delta = 0 ∧
      ¬ ∃ res : AnswerResponse, (none : Option AnswerResponse) = some res ∧
          handleSubmitResult true 0 q_mcq none = res := by
  refine ⟨rfl, rfl, rfl, rfl, ?_⟩
  rintro ⟨res, hres, -⟩
  exact Option.noConfusion hres

/-- C3 amended: when the answer-submission call succeeds the component
surfaces the servers persisted result unchanged; when the call fails the
attempt is not persisted and the component substitutes the locally
fabricated response, whose composite score is 0.85 for a correct
first-try answer, 0.55 for a correct answer after a retry and 0 for an
incorrect answer, with ratings old = new = 1000 and delta 0. -/
theorem submit_result_characterization (isCorrect : Bool) (retries : ℕ)
    (q : Question) (res : AnswerResponse) :
    handleSubmitResult isCorrect retries q (some res) = res ∧
      handleSubmitResult isCorrect retries q none
        = fallbackResponse isCorrect retries q ∧
      (fallbackResponse isCorrect retries q).cms
        = (if isCorrect then (if retries = 0 then (0.85 : ℚ) else 0.55)
            else 0) ∧
      (fallbackResponse isCorrect retries q).old_skill = 1000 ∧
      (fallbackResponse isCorrect retries q).new_skill = 1000 ∧
      (fallbackResponse isCorrect retries q).skill_delta = 0 :=
  ⟨rfl, rfl, rfl, rfl, rfl, rfl⟩

end Cognify
